/-
Verification of the KeyMint Go client (keymint-dev/Keymint-Go).

Shallow embedding of `src/Index.go` and `src/Types.go`:
* a JSON value model (mutual inductives, so every function below is
  structurally recursive and kernel-computable);
* Go `encoding/json` unmarshalling of the `ApiError` and
  `CreateKeyResponse` structs, including Go's documented behaviour of
  skipping a field on `UnmarshalTypeError` and completing the rest of the
  decode (partial population of the target on a non-nil error), and of
  treating JSON `null` as a no-op for non-pointer fields;
* Go `encoding/json` marshalling of `DeactivateKeyParams` with
  `omitempty` pointer fields;
* the transport core `handleRequest` / `handleGetRequest` /
  `handleDeleteRequest` (Index.go lines 48-242): the network is abstracted
  as an `Outcome` (which local/network step failed, or the HTTP status and
  body that came back), and everything from that point on is translated
  line by line.  The `%v` suffix Go appends to its low-level error
  messages is carried as an explicit error-text string in each failure
  constructor.
-/
import Mathlib

namespace Keymint

/-! ## JSON values

Mutual inductives instead of a nested `List Json`, so that structural
recursion (and hence kernel reduction, `decide`, `rfl`) works everywhere. -/

mutual

inductive Json where
  | null : Json
  | bool (b : Bool) : Json
  | num (n : Int) : Json
  | str (s : String) : Json
  | arr (elems : JsonList) : Json
  | obj (fields : JsonFields) : Json

inductive JsonList where
  | nil : JsonList
  | cons (hd : Json) (tl : JsonList) : JsonList

inductive JsonFields where
  | nil : JsonFields
  | cons (key : String) (val : Json) (tl : JsonFields) : JsonFields

end

deriving instance DecidableEq for Json
deriving instance DecidableEq for JsonList
deriving instance DecidableEq for JsonFields

/- Compact rendering, as Go's `json.Encoder` would have produced the bytes
the client receives (string escaping is not modelled; no claim feeds a
string needing escapes through it). -/
mutual

def Json.render : Json → String
  | .null => "null"
  | .bool true => "true"
  | .bool false => "false"
  | .num n => toString n
  | .str s => "\"" ++ s ++ "\""
  | .arr xs => "[" ++ xs.render ++ "]"
  | .obj fs => "\x7b" ++ fs.render ++ "\x7d"

def JsonList.render : JsonList → String
  | .nil => ""
  | .cons x .nil => x.render
  | .cons x tl => x.render ++ "," ++ tl.render

def JsonFields.render : JsonFields → String
  | .nil => ""
  | .cons k v .nil => "\"" ++ k ++ "\":" ++ v.render
  | .cons k v tl => "\"" ++ k ++ "\":" ++ v.render ++ "," ++ tl.render

end

/-- Key lookup with Go's duplicate-key semantics: the last occurrence of a
key in the serialized object wins. -/
def JsonFields.lookupLast (k : String) : JsonFields → Option Json
  | .nil => none
  | .cons k1 v tl =>
    match JsonFields.lookupLast k tl with
    | some r => some r
    | none => if k1 = k then some v else none

/-- ASCII case folding of one character, as Go's `encoding/json` key
folding does for ASCII letters. -/
def foldChar (c : Char) : Char :=
  if 'A' ≤ c ∧ c ≤ 'Z' then Char.ofNat (c.toNat + 32) else c

/-- Go's `json.Unmarshal` matches a JSON object key to a struct field's
tag preferring an exact match "but also accepting a case-insensitive
match" (its `foldName`).  The tags of the structs modelled here are ASCII
and pairwise distinct under folding, so per-key matching is simply
equality under ASCII case folding; the exotic non-ASCII simple-folding
corner (e.g. the Kelvin sign folding onto `k`) is not modelled — no claim
involves non-ASCII keys. -/
def keyMatchesTag (k tag : String) : Bool :=
  k.toList.map foldChar = tag.toList.map foldChar

/-- Whether the object carries a key that `json.Unmarshal` would decode
into the field with the given tag (i.e. a case-insensitive match). -/
def JsonFields.hasKeyFold (tag : String) : JsonFields → Bool
  | .nil => false
  | .cons k1 _ tl => keyMatchesTag k1 tag || JsonFields.hasKeyFold tag tl

def Json.objLookup (k : String) : Json → Option Json
  | .obj fs => fs.lookupLast k
  | _ => none

/-! ## ApiError (Types.go lines 27-39) -/

/-- `ApiError` struct: `Message string`, `Code int`,
`Status *int json:"status,omitempty"`.  The nillable pointer is an
`Option`. -/
structure ApiError where
  Message : String
  Code : Int
  Status : Option Int
deriving DecidableEq

/-- The `Error()` method (Types.go lines 34-39): `fmt.Sprintf` with `%d`
for the ints and `%s` for the message. -/
def ApiError.Error (e : ApiError) : String :=
  match e.Status with
  | some s =>
    "KeyMint API Error (code: " ++ toString e.Code ++ ", status: " ++
      toString s ++ "): " ++ e.Message
  | none => "KeyMint API Error (code: " ++ toString e.Code ++ "): " ++ e.Message

/-- One step of Go's `json.Unmarshal` object loop for the `ApiError`
target: keys are matched against the json tags `message` / `code` /
`status` case-insensitively (`keyMatchesTag`), unknown keys are ignored,
JSON `null` leaves a non-pointer field unchanged and sets a pointer field
to nil, and a type mismatch flags an error but decoding continues (Go
records the error with `d.saveError` and keeps going). -/
def ApiError.stepField (k : String) (v : Json) (acc : ApiError × Bool) :
    ApiError × Bool :=
  if keyMatchesTag k "message" then
    match v with
    | .str s => ({ acc.1 with Message := s }, acc.2)
    | .null => acc
    | _ => (acc.1, false)
  else if keyMatchesTag k "code" then
    match v with
    | .num n => ({ acc.1 with Code := n }, acc.2)
    | .null => acc
    | _ => (acc.1, false)
  else if keyMatchesTag k "status" then
    match v with
    | .num n => ({ acc.1 with Status := some n }, acc.2)
    | .null => ({ acc.1 with Status := none }, acc.2)
    | _ => (acc.1, false)
  else acc

def ApiError.unmarshalFields : JsonFields → ApiError × Bool → ApiError × Bool
  | .nil, acc => acc
  | .cons k v tl, acc => ApiError.unmarshalFields tl (ApiError.stepField k v acc)

/-- `json.Unmarshal(body, &apiErr)` on an already syntax-checked JSON
value, into a zero-valued `var apiErr ApiError`; `none` models a non-nil
returned error (the partially populated struct is discarded by the caller
in that case, matching Index.go line 88 which only uses `apiErr` when
`err == nil`). -/
def unmarshalApiError : Json → Option ApiError
  | .null => some ⟨"", 0, none⟩
  | .obj fs =>
    match ApiError.unmarshalFields fs (⟨"", 0, none⟩, true) with
    | (a, true) => some a
    | (_, false) => none
  | _ => none

/-! ## Client construction (Index.go lines 24-40) -/

/-- The `Client` struct.  The embedded `http.Client` with its fixed
30-second timeout carries no data a claim depends on and is not modelled. -/
structure Client where
  baseURL : String
  accessToken : String
deriving DecidableEq

/-- `New` (Index.go lines 24-40).  Go returns `(*Client, error)` with
exactly one of the two non-nil; `Except` captures that. -/
def New (accessToken baseURL : String) : Except String Client :=
  if accessToken = "" then
    .error "access token is required to initialize the client"
  else
    .ok ⟨if baseURL = "" then "https://api.keymint.dev" else baseURL, accessToken⟩

/-- The request URL built at Index.go line 57 (and identically at lines
116 and 183): `c.baseURL + endpoint`. -/
def requestURL (c : Client) (endpoint : String) : String :=
  c.baseURL ++ endpoint

/-! ## The transport core (Index.go lines 48-242)

The network round trip is abstracted as an `Outcome`: which of the
straight-line steps of the handler failed first, or the HTTP response
(status code plus body) that came back.  Each failure constructor carries
the text Go's `%v` would have rendered for the underlying error. -/

/-- A received response body: either bytes that are well-formed JSON
(rendering to `Json.render`), or malformed bytes (for which
`json.Unmarshal` fails its up-front `checkValid` syntax check with the
given error text, touching nothing). -/
inductive Body where
  | json (j : Json)
  | malformed (rawText : String) (errText : String)
deriving DecidableEq

/-- `string(body)` — the raw bytes as text. -/
def Body.raw : Body → String
  | .json j => j.render
  | .malformed s _ => s

/-- The syntax-check stage of `json.Unmarshal` on the raw bytes. -/
def Body.parse : Body → Option Json
  | .json j => some j
  | .malformed _ _ => none

/-- Outcome of the environment-dependent steps of a POST/PUT request:
`json.Marshal` (line 49), `http.NewRequest` (line 57),
`httpClient.Do` (line 68), `io.ReadAll` (line 77), or a fully read
response. -/
inductive Outcome where
  | marshalFail (errText : String)
  | requestFail (errText : String)
  | networkFail (errText : String)
  | bodyReadFail (status : Int) (errText : String)
  | response (status : Int) (body : Body)
deriving DecidableEq

/-- Outcome of a GET/DELETE request (no request body, hence no marshal
step; lines 116-151 and 183-218). -/
inductive FetchOutcome where
  | requestFail (errText : String)
  | networkFail (errText : String)
  | bodyReadFail (status : Int) (errText : String)
  | response (status : Int) (body : Body)
deriving DecidableEq

/-- `handleRequest` (Index.go lines 48-108), generic over the result type:
`unmarshalResult j r` is `json.Unmarshal(body, result)` on valid JSON `j`
with the target currently holding `r`; it returns the (possibly partially)
updated target and `none` for a nil error or `some errText` for a non-nil
one.  The Go function mutates `result` through a pointer and returns only
the error; the pair returns both. -/
def handleRequest {ρ : Type} (o : Outcome)
    (unmarshalResult : Json → ρ → ρ × Option String) (result : ρ) :
    ρ × Option ApiError :=
  match o with
  | .marshalFail t =>
    (result, some ⟨"failed to marshal request: " ++ t, -1, none⟩)
  | .requestFail t =>
    (result, some ⟨"failed to create request: " ++ t, -1, none⟩)
  | .networkFail t =>
    (result, some ⟨"request failed: " ++ t, -1, none⟩)
  | .bodyReadFail st t =>
    (result, some ⟨"failed to read response: " ++ t, -1, some st⟩)
  | .response st body =>
    if 400 ≤ st then
      match body.parse.bind unmarshalApiError with
      | some apiErr =>
        if apiErr.Message ≠ "" then
          (result, some { apiErr with Status := some st })
        else
          (result, some ⟨"API error: " ++ body.raw, -1, some st⟩)
      | none => (result, some ⟨"API error: " ++ body.raw, -1, some st⟩)
    else
      match body with
      | .malformed _ t =>
        (result, some ⟨"failed to unmarshal response: " ++ t, -1, some st⟩)
      | .json j =>
        match unmarshalResult j result with
        | (r1, none) => (r1, none)
        | (r1, some t) =>
          (r1, some ⟨"failed to unmarshal response: " ++ t, -1, some st⟩)

/-- `handleGetRequest` (Index.go lines 115-175); the source duplicates the
classification code of `handleRequest` verbatim, as does this definition. -/
def handleGetRequest {ρ : Type} (o : FetchOutcome)
    (unmarshalResult : Json → ρ → ρ × Option String) (result : ρ) :
    ρ × Option ApiError :=
  match o with
  | .requestFail t =>
    (result, some ⟨"failed to create request: " ++ t, -1, none⟩)
  | .networkFail t =>
    (result, some ⟨"request failed: " ++ t, -1, none⟩)
  | .bodyReadFail st t =>
    (result, some ⟨"failed to read response: " ++ t, -1, some st⟩)
  | .response st body =>
    if 400 ≤ st then
      match body.parse.bind unmarshalApiError with
      | some apiErr =>
        if apiErr.Message ≠ "" then
          (result, some { apiErr with Status := some st })
        else
          (result, some ⟨"API error: " ++ body.raw, -1, some st⟩)
      | none => (result, some ⟨"API error: " ++ body.raw, -1, some st⟩)
    else
      match body with
      | .malformed _ t =>
        (result, some ⟨"failed to unmarshal response: " ++ t, -1, some st⟩)
      | .json j =>
        match unmarshalResult j result with
        | (r1, none) => (r1, none)
        | (r1, some t) =>
          (r1, some ⟨"failed to unmarshal response: " ++ t, -1, some st⟩)

/-- `handleDeleteRequest` (Index.go lines 182-242); again a verbatim
duplicate of the classification code. -/
def handleDeleteRequest {ρ : Type} (o : FetchOutcome)
    (unmarshalResult : Json → ρ → ρ × Option String) (result : ρ) :
    ρ × Option ApiError :=
  match o with
  | .requestFail t =>
    (result, some ⟨"failed to create request: " ++ t, -1, none⟩)
  | .networkFail t =>
    (result, some ⟨"request failed: " ++ t, -1, none⟩)
  | .bodyReadFail st t =>
    (result, some ⟨"failed to read response: " ++ t, -1, some st⟩)
  | .response st body =>
    if 400 ≤ st then
      match body.parse.bind unmarshalApiError with
      | some apiErr =>
        if apiErr.Message ≠ "" then
          (result, some { apiErr with Status := some st })
        else
          (result, some ⟨"API error: " ++ body.raw, -1, some st⟩)
      | none => (result, some ⟨"API error: " ++ body.raw, -1, some st⟩)
    else
      match body with
      | .malformed _ t =>
        (result, some ⟨"failed to unmarshal response: " ++ t, -1, some st⟩)
      | .json j =>
        match unmarshalResult j result with
        | (r1, none) => (r1, none)
        | (r1, some t) =>
          (r1, some ⟨"failed to unmarshal response: " ++ t, -1, some st⟩)

/-! ## One concrete operation: CreateKey (Index.go lines 247-251,
Types.go lines 22-25) -/

/-- `CreateKeyResponse`: `Code int json:"code"`, `Key string json:"key"`. -/
structure CreateKeyResponse where
  Code : Int
  Key : String
deriving DecidableEq

/-- `var result CreateKeyResponse` — Go's zero value. -/
def CreateKeyResponse.zero : CreateKeyResponse := ⟨0, ""⟩

/-- Go object-loop decode into `CreateKeyResponse`, with the same
skip-and-continue behaviour on type mismatch as for `ApiError`. -/
def CreateKeyResponse.stepField (k : String) (v : Json)
    (acc : CreateKeyResponse × Bool) : CreateKeyResponse × Bool :=
  if keyMatchesTag k "code" then
    match v with
    | .num n => ({ acc.1 with Code := n }, acc.2)
    | .null => acc
    | _ => (acc.1, false)
  else if keyMatchesTag k "key" then
    match v with
    | .str s => ({ acc.1 with Key := s }, acc.2)
    | .null => acc
    | _ => (acc.1, false)
  else acc

def CreateKeyResponse.unmarshalFields :
    JsonFields → CreateKeyResponse × Bool → CreateKeyResponse × Bool
  | .nil, acc => acc
  | .cons k v tl, acc =>
    CreateKeyResponse.unmarshalFields tl (CreateKeyResponse.stepField k v acc)

/-- `json.Unmarshal` into a `CreateKeyResponse` target.  The exact text of
Go's `UnmarshalTypeError` depends on the offending field and is not
reproduced; no claim constrains it. -/
def CreateKeyResponse.unmarshalInto (j : Json) (r : CreateKeyResponse) :
    CreateKeyResponse × Option String :=
  match j with
  | .null => (r, none)
  | .obj fs =>
    match CreateKeyResponse.unmarshalFields fs (r, true) with
    | (r1, true) => (r1, none)
    | (r1, false) => (r1, some "json: cannot unmarshal JSON value into Go value")
  | _ => (r, some "json: cannot unmarshal JSON value into Go value")

/-- `CreateKey` (Index.go lines 247-251): zero-initialize the result,
run the POST handler, return the (always non-nil in Go) result pointer
and the error. -/
def CreateKey (o : Outcome) : CreateKeyResponse × Option ApiError :=
  handleRequest o CreateKeyResponse.unmarshalInto CreateKeyResponse.zero

/-! ## DeactivateKeyParams marshalling (Types.go lines 57-62) -/

/-- `DeactivateKeyParams`: `ProductID string json:"productId"`,
`LicenseKey string json:"licenseKey"`,
`HostID *string json:"hostId,omitempty"`. -/
structure DeactivateKeyParams where
  ProductID : String
  LicenseKey : String
  HostID : Option String
deriving DecidableEq

/-- `json.Marshal` of `DeactivateKeyParams`: fields in struct order;
`omitempty` on a pointer field drops the key exactly when the pointer is
nil — a non-nil pointer to `""` is still emitted. -/
def DeactivateKeyParams.marshal (p : DeactivateKeyParams) : Json :=
  .obj (.cons "productId" (.str p.ProductID)
    (.cons "licenseKey" (.str p.LicenseKey)
      (match p.HostID with
       | some h => .cons "hostId" (.str h) .nil
       | none => .nil)))

/-! ## Shared lemmas about the transport core -/

/-- The GET handler's response branch is the verbatim duplicate of the
POST/PUT handler's (Index.go lines 153-174 vs 86-107). -/
lemma handleGetRequest_response {ρ : Type} (st : Int) (body : Body)
    (unm : Json → ρ → ρ × Option String) (r : ρ) :
    handleGetRequest (.response st body) unm r =
      handleRequest (.response st body) unm r := rfl

/-- The DELETE handler's response branch is the verbatim duplicate of the
POST/PUT handler's (Index.go lines 220-241 vs 86-107). -/
lemma handleDeleteRequest_response {ρ : Type} (st : Int) (body : Body)
    (unm : Json → ρ → ρ × Option String) (r : ρ) :
    handleDeleteRequest (.response st body) unm r =
      handleRequest (.response st body) unm r := rfl

/-- Index.go lines 86-91: on status ≥ 400, a body that unmarshals into an
`ApiError` with non-empty message is returned with its `Status` overwritten
by the observed status code. -/
lemma handleRequest_error_body {ρ : Type} (st : Int) (body : Body) (a : ApiError)
    (unm : Json → ρ → ρ × Option String) (r : ρ) (hst : 400 ≤ st)
    (hp : body.parse.bind unmarshalApiError = some a) (hm : a.Message ≠ "") :
    handleRequest (.response st body) unm r =
      (r, some ⟨a.Message, a.Code, some st⟩) := by
  simp only [handleRequest, if_pos hst, hp]
  rw [if_pos hm]

/-- Index.go lines 92-96: on status ≥ 400, a body that does not unmarshal
into an `ApiError`, or yields an empty message, produces the synthesized
error over the raw body text. -/
lemma handleRequest_error_synth {ρ : Type} (st : Int) (body : Body)
    (unm : Json → ρ → ρ × Option String) (r : ρ) (hst : 400 ≤ st)
    (hbad : body.parse.bind unmarshalApiError = none ∨
      ∃ a, body.parse.bind unmarshalApiError = some a ∧ a.Message = "") :
    handleRequest (.response st body) unm r =
      (r, some ⟨"API error: " ++ body.raw, -1, some st⟩) := by
  rcases hbad with h | ⟨a, h, ha⟩
  · simp only [handleRequest, if_pos hst, h]
  · simp only [handleRequest, if_pos hst, h]
    rw [if_neg (by simp [ha])]

/-- A field step for a key that does not fold-match `code` never touches
the `Code` accumulator field. -/
lemma stepField_code_const (k : String) (v : Json) (acc : ApiError × Bool)
    (h : keyMatchesTag k "code" = false) :
    (ApiError.stepField k v acc).1.Code = acc.1.Code := by
  unfold ApiError.stepField
  cases h1 : keyMatchesTag k "message" with
  | true =>
    rw [if_pos rfl]
    cases v <;> rfl
  | false =>
    rw [if_neg (by simp), if_neg (by simp [h])]
    cases h3 : keyMatchesTag k "status" with
    | true =>
      rw [if_pos rfl]
      cases v <;> rfl
    | false =>
      rw [if_neg (by simp)]

/-- If the decoded object has no key that `json.Unmarshal` would match to
the `code` tag, the `Code` field of the `ApiError` accumulator is never
touched by the unmarshal loop. -/
lemma unmarshalFields_code_const :
    ∀ (fs : JsonFields), fs.hasKeyFold "code" = false →
      ∀ (acc : ApiError × Bool),
        (ApiError.unmarshalFields fs acc).1.Code = acc.1.Code
  | .nil, _, _ => rfl
  | .cons k v tl, h, acc => by
    have hk : keyMatchesTag k "code" = false ∧
        JsonFields.hasKeyFold "code" tl = false := by
      simpa [JsonFields.hasKeyFold] using h
    calc (ApiError.unmarshalFields tl (ApiError.stepField k v acc)).1.Code
        = (ApiError.stepField k v acc).1.Code :=
          unmarshalFields_code_const tl hk.2 _
      _ = acc.1.Code := stepField_code_const k v acc hk.1

/-- Index.go lines 86-97: on a status ≥ 400 response the handler never
touches the caller's result and always returns a non-nil error. -/
lemma handleRequest_error_status_untouched {ρ : Type}
    (unm : Json → ρ → ρ × Option String) (r : ρ) (st : Int) (body : Body)
    (hst : 400 ≤ st) :
    (handleRequest (.response st body) unm r).1 = r ∧
    (handleRequest (.response st body) unm r).2 ≠ none := by
  rcases h2 : body.parse.bind unmarshalApiError with _ | a
  · constructor <;> simp [handleRequest, if_pos hst, h2]
  · by_cases hm : a.Message ≠ ""
    · constructor <;> simp [handleRequest, if_pos hst, h2, if_pos hm]
    · constructor <;> simp [handleRequest, if_pos hst, h2, if_neg hm]

/-- A nil error out of the handler can only come from the sub-400,
valid-JSON, decoder-success path (Index.go lines 99-107). -/
lemma handleRequest_success_shape {ρ : Type}
    (unm : Json → ρ → ρ × Option String) (r : ρ) (st : Int) (body : Body)
    (h : (handleRequest (.response st body) unm r).2 = none) :
    ∃ j, body = .json j ∧ st < 400 ∧ (unm j r).2 = none := by
  by_cases hst : 400 ≤ st
  · exact absurd h (handleRequest_error_status_untouched unm r st body hst).2
  · cases body with
    | malformed s t =>
      exfalso
      simp [handleRequest, hst] at h
    | json j =>
      rcases hj : unm j r with ⟨r1, o1⟩
      cases o1 with
      | none => exact ⟨j, rfl, not_le.mp hst, by rw [hj]⟩
      | some t =>
        exfalso
        simp [handleRequest, hst, hj] at h

/-! ## Claims -/

/-- C1: for every operation (the POST/PUT, GET and DELETE handlers alike,
hence every operation built on them, for any result type, decoder and
initial result value), when the server responds with HTTP 400 and the JSON
body `\x7b"message": M, "code": C\x7d`, the returned error carries message
`M`, code `C` and httpStatus 400; and, per the branch condition of
section 4.1, this holds exactly when `M` is non-empty — for `M = ""` the
synthesized error over the raw body text is returned instead. -/
theorem claim_C1_error_body_propagated {ρ : Type} (M : String) (C : Int)
    (unm : Json → ρ → ρ × Option String) (r : ρ) :
    (M ≠ "" →
      (handleRequest (.response 400 (.json (.obj (.cons "message" (.str M)
        (.cons "code" (.num C) .nil))))) unm r).2 = some ⟨M, C, some 400⟩ ∧
      (handleGetRequest (.response 400 (.json (.obj (.cons "message" (.str M)
        (.cons "code" (.num C) .nil))))) unm r).2 = some ⟨M, C, some 400⟩ ∧
      (handleDeleteRequest (.response 400 (.json (.obj (.cons "message" (.str M)
        (.cons "code" (.num C) .nil))))) unm r).2 = some ⟨M, C, some 400⟩) ∧
    (M = "" →
      (handleRequest (.response 400 (.json (.obj (.cons "message" (.str M)
        (.cons "code" (.num C) .nil))))) unm r).2 =
        some ⟨"API error: " ++ (Body.json (.obj (.cons "message" (.str M)
          (.cons "code" (.num C) .nil)))).raw, -1, some 400⟩) := by
  have hp : (Body.json (.obj (.cons "message" (.str M)
      (.cons "code" (.num C) .nil)))).parse.bind unmarshalApiError =
      some ⟨M, C, none⟩ := rfl
  constructor
  · intro hM
    have h1 := handleRequest_error_body 400 _ ⟨M, C, none⟩ unm r (by norm_num) hp hM
    have e1 : (handleRequest (.response 400 (.json (.obj (.cons "message" (.str M)
        (.cons "code" (.num C) .nil))))) unm r).2 = some ⟨M, C, some 400⟩ := by
      rw [h1]
    exact ⟨e1, e1, e1⟩
  · intro hM
    have h1 := handleRequest_error_synth 400
      (Body.json (.obj (.cons "message" (.str M) (.cons "code" (.num C) .nil))))
      unm r (by norm_num) (Or.inr ⟨⟨M, C, none⟩, hp, hM⟩)
    rw [h1]

/-- Witness for C1 at `M = "Invalid request body"`, `C = 400`, decoding
into a `CreateKeyResponse`. -/
theorem claim_C1_witness :
    (handleRequest (.response 400 (.json (.obj (.cons "message"
        (.str "Invalid request body") (.cons "code" (.num 400) .nil)))))
      CreateKeyResponse.unmarshalInto CreateKeyResponse.zero).2 =
      some ⟨"Invalid request body", 400, some 400⟩ :=
  ((claim_C1_error_body_propagated "Invalid request body" 400
    CreateKeyResponse.unmarshalInto CreateKeyResponse.zero).1 (by decide)).1

/-- C2: for every operation, when the server responds with status ≥ 400
and a body that fails to unmarshal as the error record, or unmarshals with
an empty message, the returned error is
`"API error: " ++` the raw body text, with code −1 and httpStatus equal to
the observed status. -/
theorem claim_C2_unparseable_error_body_synthesized {ρ : Type} (st : Int)
    (body : Body) (unm : Json → ρ → ρ × Option String) (r : ρ)
    (hst : 400 ≤ st)
    (hbad : body.parse.bind unmarshalApiError = none ∨
      ∃ a, body.parse.bind unmarshalApiError = some a ∧ a.Message = "") :
    (handleRequest (.response st body) unm r).2 =
      some ⟨"API error: " ++ body.raw, -1, some st⟩ ∧
    (handleGetRequest (.response st body) unm r).2 =
      some ⟨"API error: " ++ body.raw, -1, some st⟩ ∧
    (handleDeleteRequest (.response st body) unm r).2 =
      some ⟨"API error: " ++ body.raw, -1, some st⟩ := by
  have h1 := handleRequest_error_synth st body unm r hst hbad
  have e1 : (handleRequest (.response st body) unm r).2 =
      some ⟨"API error: " ++ body.raw, -1, some st⟩ := by rw [h1]
  exact ⟨e1, e1, e1⟩

/-- Witness for C2 at status 400 with the valid-JSON body
`\x7b"CODE": "x", "message": "hi"\x7d`: `json.Unmarshal` matches `CODE`
to the `code` tag case-insensitively, hits a type error (string into
int), so `err != nil` and the program synthesizes the
`"API error: ..."`/−1 record even though the body carries a non-empty
message. -/
theorem claim_C2_witness :
    (handleRequest (.response 400 (.json (.obj (.cons "CODE" (.str "x")
        (.cons "message" (.str "hi") .nil)))))
      CreateKeyResponse.unmarshalInto CreateKeyResponse.zero).2 =
      some ⟨"API error: \x7b\"CODE\":\"x\",\"message\":\"hi\"\x7d", -1, some 400⟩ :=
  (claim_C2_unparseable_error_body_synthesized 400
    (.json (.obj (.cons "CODE" (.str "x") (.cons "message" (.str "hi") .nil))))
    CreateKeyResponse.unmarshalInto CreateKeyResponse.zero
    (by norm_num) (Or.inl rfl)).1

/-- C3: for every operation, when the server responds with HTTP status
< 400 but a body that does not decode into the expected success type
(malformed JSON, or a decoder failure), the call returns an error — not a
success — with code −1 and httpStatus set to that successful status code. -/
theorem claim_C3_success_status_decode_failure_is_error {ρ : Type}
    (st : Int) (body : Body) (unm : Json → ρ → ρ × Option String) (r : ρ)
    (hst : st < 400)
    (hfail : ∀ j, body = Body.json j → (unm j r).2 ≠ none) :
    (∃ e, (handleRequest (.response st body) unm r).2 = some e ∧
      e.Code = -1 ∧ e.Status = some st) ∧
    (∃ e, (handleGetRequest (.response st body) unm r).2 = some e ∧
      e.Code = -1 ∧ e.Status = some st) ∧
    (∃ e, (handleDeleteRequest (.response st body) unm r).2 = some e ∧
      e.Code = -1 ∧ e.Status = some st) := by
  have hst2 : ¬400 ≤ st := not_le.mpr hst
  have key : ∃ e, (handleRequest (.response st body) unm r).2 = some e ∧
      e.Code = -1 ∧ e.Status = some st := by
    cases body with
    | malformed s t =>
      refine ⟨⟨"failed to unmarshal response: " ++ t, -1, some st⟩, ?_, rfl, rfl⟩
      simp only [handleRequest, if_neg hst2]
    | json j =>
      rcases hj : unm j r with ⟨r1, o1⟩
      cases o1 with
      | none => exact absurd (by rw [hj]) (hfail j rfl)
      | some t =>
        refine ⟨⟨"failed to unmarshal response: " ++ t, -1, some st⟩, ?_, rfl, rfl⟩
        simp only [handleRequest, if_neg hst2, hj]
  exact ⟨key, key, key⟩

/-- Witness for C3 at status 200 with a malformed body, decoding into a
`CreateKeyResponse`. -/
theorem claim_C3_witness :
    ∃ e, (handleRequest (.response 200 (.malformed "garbage" "invalid character"))
      CreateKeyResponse.unmarshalInto CreateKeyResponse.zero).2 = some e ∧
      e.Code = -1 ∧ e.Status = some 200 :=
  (claim_C3_success_status_decode_failure_is_error 200
    (.malformed "garbage" "invalid character")
    CreateKeyResponse.unmarshalInto CreateKeyResponse.zero
    (by norm_num) (fun _ h => Body.noConfusion h)).1

/-- C5: constructing a client with an empty access token fails with exactly
this message, for every base-URL argument, and no (partial) client is
returned — `New` returns through the `Except.error` constructor, which
carries no `Client`, and its definition performs no request. -/
theorem claim_C5_empty_token_rejected (baseURL : String) :
    New "" baseURL = .error "access token is required to initialize the client" :=
  rfl

/-- C6: for every non-empty access token, construction with an empty
base-URL argument succeeds and stores `https://api.keymint.dev`, and
construction with a non-empty base-URL argument succeeds, stores exactly
that string, and every request URL subsequently built (Index.go lines 57,
116, 183) is that string followed by the operation path. -/
theorem claim_C6_base_url_defaulting (token base : String)
    (htok : token ≠ "") :
    (base = "" → New token base = .ok ⟨"https://api.keymint.dev", token⟩) ∧
    (base ≠ "" → ∃ c, New token base = .ok c ∧ c.baseURL = base ∧
      ∀ endpoint, requestURL c endpoint = base ++ endpoint) := by
  constructor
  · intro hb
    subst hb
    simp [New, htok]
  · intro hb
    refine ⟨⟨base, token⟩, ?_, rfl, fun _ => rfl⟩
    simp [New, htok, hb]

/-- Witness for C6 with a non-empty token, at both an empty and a
non-empty base URL. -/
theorem claim_C6_witness :
    New "token123" "" = .ok ⟨"https://api.keymint.dev", "token123"⟩ ∧
    ∃ c, New "token123" "https://example.test" = .ok c ∧
      c.baseURL = "https://example.test" ∧
      ∀ endpoint, requestURL c endpoint = "https://example.test" ++ endpoint :=
  ⟨(claim_C6_base_url_defaulting "token123" "" (by decide)).1 rfl,
   (claim_C6_base_url_defaulting "token123" "https://example.test"
     (by decide)).2 (by decide)⟩

/-- C7: marshalling a `DeactivateKeyParams` whose `HostID` is absent
produces a JSON object with no `hostId` key at all (so neither
`"hostId": null` nor `"hostId": ""`), while a present-but-empty `HostID`
is serialized as `"hostId": ""` — absence and empty string are
distinguishable on the wire. -/
theorem claim_C7_hostid_omission (p : DeactivateKeyParams) :
    (p.HostID = none → (p.marshal).objLookup "hostId" = none) ∧
    (p.HostID = some "" →
      (p.marshal).objLookup "hostId" = some (.str "")) := by
  obtain ⟨a, b, h⟩ := p
  constructor
  · intro hh
    subst hh
    rfl
  · intro hh
    subst hh
    rfl

/-- Witness for C7 on concrete parameter values. -/
theorem claim_C7_witness :
    (DeactivateKeyParams.marshal ⟨"p1", "k1", none⟩).objLookup "hostId" = none ∧
    (DeactivateKeyParams.marshal ⟨"p1", "k1", some ""⟩).objLookup "hostId" =
      some (.str "") :=
  ⟨(claim_C7_hostid_omission ⟨"p1", "k1", none⟩).1 rfl,
   (claim_C7_hostid_omission ⟨"p1", "k1", some ""⟩).2 rfl⟩

/-- C8: for every operation, a marshal, request-construction or network
failure (no HTTP response received) yields an error with code −1 and no
httpStatus, while a failure reading the body of a received response yields
code −1 with httpStatus set to the received status code — across all three
handlers. -/
theorem claim_C8_pre_response_failures {ρ : Type}
    (unm : Json → ρ → ρ × Option String) (r : ρ) (t : String) (st : Int) :
    (handleRequest (.marshalFail t) unm r).2 =
      some ⟨"failed to marshal request: " ++ t, -1, none⟩ ∧
    (handleRequest (.requestFail t) unm r).2 =
      some ⟨"failed to create request: " ++ t, -1, none⟩ ∧
    (handleRequest (.networkFail t) unm r).2 =
      some ⟨"request failed: " ++ t, -1, none⟩ ∧
    (handleRequest (.bodyReadFail st t) unm r).2 =
      some ⟨"failed to read response: " ++ t, -1, some st⟩ ∧
    (handleGetRequest (.requestFail t) unm r).2 =
      some ⟨"failed to create request: " ++ t, -1, none⟩ ∧
    (handleGetRequest (.networkFail t) unm r).2 =
      some ⟨"request failed: " ++ t, -1, none⟩ ∧
    (handleGetRequest (.bodyReadFail st t) unm r).2 =
      some ⟨"failed to read response: " ++ t, -1, some st⟩ ∧
    (handleDeleteRequest (.requestFail t) unm r).2 =
      some ⟨"failed to create request: " ++ t, -1, none⟩ ∧
    (handleDeleteRequest (.networkFail t) unm r).2 =
      some ⟨"request failed: " ++ t, -1, none⟩ ∧
    (handleDeleteRequest (.bodyReadFail st t) unm r).2 =
      some ⟨"failed to read response: " ++ t, -1, some st⟩ :=
  ⟨rfl, rfl, rfl, rfl, rfl, rfl, rfl, rfl, rfl, rfl⟩

/-- C9: for every response with status ≥ 400 whose body unmarshals as the
error record with a non-empty message, the returned error's httpStatus is
the observed HTTP status — any `status` field the body itself carried is
overwritten — and a body that omits the `code` field (no key that
`json.Unmarshal` would match to the `code` tag, matching being
case-insensitive) yields code 0 (the int zero value), not −1. -/
theorem claim_C9_status_overwrite_code_default {ρ : Type} (st : Int)
    (j : Json) (a : ApiError) (unm : Json → ρ → ρ × Option String) (r : ρ)
    (hst : 400 ≤ st) (hp : unmarshalApiError j = some a)
    (hm : a.Message ≠ "") :
    (handleRequest (.response st (.json j)) unm r).2 =
      some ⟨a.Message, a.Code, some st⟩ ∧
    (handleGetRequest (.response st (.json j)) unm r).2 =
      some ⟨a.Message, a.Code, some st⟩ ∧
    (handleDeleteRequest (.response st (.json j)) unm r).2 =
      some ⟨a.Message, a.Code, some st⟩ ∧
    (∀ fs, j = Json.obj fs → fs.hasKeyFold "code" = false → a.Code = 0) := by
  have hp2 : (Body.json j).parse.bind unmarshalApiError = some a := hp
  have h1 := handleRequest_error_body st (.json j) a unm r hst hp2 hm
  have e1 : (handleRequest (.response st (.json j)) unm r).2 =
      some ⟨a.Message, a.Code, some st⟩ := by rw [h1]
  refine ⟨e1, e1, e1, ?_⟩
  intro fs hfs hkey
  subst hfs
  have hcode := unmarshalFields_code_const fs hkey (⟨"", 0, none⟩, true)
  rcases h2 : ApiError.unmarshalFields fs (⟨"", 0, none⟩, true) with ⟨a1, ok⟩
  cases ok
  · simp only [unmarshalApiError, h2] at hp
    exact Option.noConfusion hp
  · simp only [unmarshalApiError, h2] at hp
    have ha : a1 = a := Option.some.inj hp
    rw [h2] at hcode
    rw [← ha]
    exact hcode

/-- Witness for C9: a 401 response whose body carries `status: 999` and no
key matching the `code` field. -/
theorem claim_C9_witness :
    (handleRequest (.response 401 (.json (.obj (.cons "message"
        (.str "invalid token") (.cons "status" (.num 999) .nil)))))
      CreateKeyResponse.unmarshalInto CreateKeyResponse.zero).2 =
      some ⟨"invalid token", 0, some 401⟩ ∧
    (ApiError.mk "invalid token" 0 (some 999)).Code = 0 := by
  have h := claim_C9_status_overwrite_code_default 401
    (.obj (.cons "message" (.str "invalid token")
      (.cons "status" (.num 999) .nil)))
    ⟨"invalid token", 0, some 999⟩
    CreateKeyResponse.unmarshalInto CreateKeyResponse.zero
    (by norm_num) (by decide) (by decide)
  exact ⟨h.1, h.2.2.2 _ rfl (by decide)⟩

/-- C4, amended, for all three handlers (hence all thirteen operations):
a successful call returns the decoded response with a nil error, and a
failed call returns a non-nil error with a non-nil response pointer
(structural here: a `ρ` value is always returned); the pointee is the
zero value `r` on every failure path — each failure constructor, any
status ≥ 400 response, and a sub-400 malformed body — except a decode
failure of a sub-400 valid-JSON body, where it is whatever
`json.Unmarshal` left behind, possibly partially populated (see the
counterexample); and a nil error arises only on the sub-400 valid-JSON
decoder-success path. -/
theorem claim_C4_zero_value_on_failure {ρ : Type}
    (unm : Json → ρ → ρ × Option String) (r : ρ) :
    ((∀ t, (handleRequest (.marshalFail t) unm r).1 = r) ∧
     (∀ t, (handleRequest (.requestFail t) unm r).1 = r) ∧
     (∀ t, (handleRequest (.networkFail t) unm r).1 = r) ∧
     (∀ st t, (handleRequest (.bodyReadFail st t) unm r).1 = r) ∧
     (∀ st body, 400 ≤ st → (handleRequest (.response st body) unm r).1 = r) ∧
     (∀ st s t, st < 400 →
        (handleRequest (.response st (.malformed s t)) unm r).1 = r) ∧
     (∀ st j, st < 400 →
        (handleRequest (.response st (.json j)) unm r).1 = (unm j r).1) ∧
     (∀ o : Outcome, (handleRequest o unm r).2 = none →
        ∃ st j, o = .response st (.json j) ∧ st < 400 ∧ (unm j r).2 = none)) ∧
    ((∀ t, (handleGetRequest (.requestFail t) unm r).1 = r) ∧
     (∀ t, (handleGetRequest (.networkFail t) unm r).1 = r) ∧
     (∀ st t, (handleGetRequest (.bodyReadFail st t) unm r).1 = r) ∧
     (∀ st body, 400 ≤ st → (handleGetRequest (.response st body) unm r).1 = r) ∧
     (∀ st s t, st < 400 →
        (handleGetRequest (.response st (.malformed s t)) unm r).1 = r) ∧
     (∀ st j, st < 400 →
        (handleGetRequest (.response st (.json j)) unm r).1 = (unm j r).1) ∧
     (∀ o : FetchOutcome, (handleGetRequest o unm r).2 = none →
        ∃ st j, o = .response st (.json j) ∧ st < 400 ∧ (unm j r).2 = none)) ∧
    ((∀ t, (handleDeleteRequest (.requestFail t) unm r).1 = r) ∧
     (∀ t, (handleDeleteRequest (.networkFail t) unm r).1 = r) ∧
     (∀ st t, (handleDeleteRequest (.bodyReadFail st t) unm r).1 = r) ∧
     (∀ st body, 400 ≤ st →
        (handleDeleteRequest (.response st body) unm r).1 = r) ∧
     (∀ st s t, st < 400 →
        (handleDeleteRequest (.response st (.malformed s t)) unm r).1 = r) ∧
     (∀ st j, st < 400 →
        (handleDeleteRequest (.response st (.json j)) unm r).1 = (unm j r).1) ∧
     (∀ o : FetchOutcome, (handleDeleteRequest o unm r).2 = none →
        ∃ st j, o = .response st (.json j) ∧ st < 400 ∧ (unm j r).2 = none)) := by
  have hstatus : ∀ (st : Int) (body : Body), 400 ≤ st →
      (handleRequest (.response st body) unm r).1 = r :=
    fun st body hst =>
      (handleRequest_error_status_untouched unm r st body hst).1
  have hmal : ∀ (st : Int) (s t : String), st < 400 →
      (handleRequest (.response st (.malformed s t)) unm r).1 = r := by
    intro st s t hlt
    simp [handleRequest, not_le.mpr hlt]
  have hjson : ∀ (st : Int) (j : Json), st < 400 →
      (handleRequest (.response st (.json j)) unm r).1 = (unm j r).1 := by
    intro st j hlt
    rcases hj : unm j r with ⟨r1, o1⟩
    cases o1 <;> simp [handleRequest, not_le.mpr hlt, hj]
  have hsucc : ∀ o : Outcome, (handleRequest o unm r).2 = none →
      ∃ st j, o = Outcome.response st (.json j) ∧ st < 400 ∧
        (unm j r).2 = none := by
    intro o h
    cases o with
    | marshalFail t => simp [handleRequest] at h
    | requestFail t => simp [handleRequest] at h
    | networkFail t => simp [handleRequest] at h
    | bodyReadFail st t => simp [handleRequest] at h
    | response st body =>
      obtain ⟨j, hb, hlt, hnone⟩ := handleRequest_success_shape unm r st body h
      exact ⟨st, j, by rw [hb], hlt, hnone⟩
  have hsuccG : ∀ o : FetchOutcome, (handleGetRequest o unm r).2 = none →
      ∃ st j, o = FetchOutcome.response st (.json j) ∧ st < 400 ∧
        (unm j r).2 = none := by
    intro o h
    cases o with
    | requestFail t => simp [handleGetRequest] at h
    | networkFail t => simp [handleGetRequest] at h
    | bodyReadFail st t => simp [handleGetRequest] at h
    | response st body =>
      obtain ⟨j, hb, hlt, hnone⟩ := handleRequest_success_shape unm r st body h
      exact ⟨st, j, by rw [hb], hlt, hnone⟩
  have hsuccD : ∀ o : FetchOutcome, (handleDeleteRequest o unm r).2 = none →
      ∃ st j, o = FetchOutcome.response st (.json j) ∧ st < 400 ∧
        (unm j r).2 = none := by
    intro o h
    cases o with
    | requestFail t => simp [handleDeleteRequest] at h
    | networkFail t => simp [handleDeleteRequest] at h
    | bodyReadFail st t => simp [handleDeleteRequest] at h
    | response st body =>
      obtain ⟨j, hb, hlt, hnone⟩ := handleRequest_success_shape unm r st body h
      exact ⟨st, j, by rw [hb], hlt, hnone⟩
  exact ⟨⟨fun _ => rfl, fun _ => rfl, fun _ => rfl, fun _ _ => rfl,
          hstatus, hmal, hjson, hsucc⟩,
         ⟨fun _ => rfl, fun _ => rfl, fun _ _ => rfl,
          hstatus, hmal, hjson, hsuccG⟩,
         ⟨fun _ => rfl, fun _ => rfl, fun _ _ => rfl,
          hstatus, hmal, hjson, hsuccD⟩⟩

/-- Counterexample to C4 as stated: a 200 response with the valid-JSON
body `\x7b"code": 5, "key": 123\x7d` fails to decode into
`CreateKeyResponse` (123 is not a string), so `CreateKey` returns a
non-nil error — yet the returned response is `⟨5, ""⟩`, not the zero value:
Go's `json.Unmarshal` decodes `code` before saving the type error on
`key` and completing the rest of the decode. -/
theorem claim_C4_counterexample :
    (CreateKey (.response 200 (.json (.obj (.cons "code" (.num 5)
      (.cons "key" (.num 123) .nil)))))).2.isSome = true ∧
    (CreateKey (.response 200 (.json (.obj (.cons "code" (.num 5)
      (.cons "key" (.num 123) .nil)))))).1 ≠ CreateKeyResponse.zero := by
  decide

/-- Witness for the amended C4: a 500 response with an unreadable-as-error
body leaves the returned `CreateKeyResponse` at its zero value, through
the GET handler. -/
theorem claim_C4_witness :
    (handleGetRequest (.response 500 (.malformed "oops" "invalid character"))
      CreateKeyResponse.unmarshalInto CreateKeyResponse.zero).1 =
      CreateKeyResponse.zero :=
  (claim_C4_zero_value_on_failure CreateKeyResponse.unmarshalInto
    CreateKeyResponse.zero).2.1.2.2.2.1 500
    (.malformed "oops" "invalid character") (by norm_num)

/-- C10: the rendered error string of an `ApiError` is exactly
`"KeyMint API Error (code: <code>, status: <status>): <message>"` when
httpStatus is present and exactly
`"KeyMint API Error (code: <code>): <message>"` when it is absent. -/
theorem claim_C10_error_string_format (m : String) (c s : Int) :
    (ApiError.mk m c (some s)).Error =
      "KeyMint API Error (code: " ++ toString c ++ ", status: " ++
        toString s ++ "): " ++ m ∧
    (ApiError.mk m c none).Error =
      "KeyMint API Error (code: " ++ toString c ++ "): " ++ m :=
  ⟨rfl, rfl⟩

end Keymint
